import Mathlib

/-!
Shallow embedding of the polarityio/dns-query integration
(src/integration.ts) together with proofs about the claims of its
specification.

Conventions of the embedding:

* JavaScript objects become structures; a possibly-undefined field becomes
  an Option.
* The answer object maps record-type keys to record results.  It is
  modelled as an association list in key insertion order, with the side
  order array kept in a separate field, exactly as in the source.
* Asynchronous completion is made explicit: the batch driver takes a
  completion schedule, the list of entity indices in the order in which the
  per-entity async units finish.  async.eachLimit with limit L starts the
  first L units at once and starts the next one whenever a unit finishes,
  so a completion order is realizable exactly when the k-th finisher was
  already started, that is sched[k] <= k + L - 1.
* Per-entity query tasks run concurrently as well, but every task writes a
  distinct record of the answer and the running answer total is a sum, so
  the per-entity outcome does not depend on the intra-entity completion
  order (the answer is re-sorted after all tasks settle); the per-entity
  part is therefore a function.  When several tasks of one entity fail
  fatally the model propagates the first one in query-type order.
* Wall-clock timing is not modelled: elapsed times are recorded as 0.
* The DNS resolver (promisified dns.resolve4 / dns.resolve6 / dns.resolve
  and dns.reverse) is a black box and becomes an explicit oracle value.
-/

namespace DnsQuery

/-- The record types the integration knows: the seven domain types of
src/types.ts (DomainRecordType) plus PTR for reverse lookups. -/
inductive RecType
  | A
  | AAAA
  | CNAME
  | MX
  | TXT
  | NS
  | SOA
  | PTR
deriving DecidableEq

/-- The string name of a record type, as used for the queryTypes option
values and for template-literal formatting of summary tags. -/
def RecType.toName : RecType → String
  | .A => "A"
  | .AAAA => "AAAA"
  | .CNAME => "CNAME"
  | .MX => "MX"
  | .TXT => "TXT"
  | .NS => "NS"
  | .SOA => "SOA"
  | .PTR => "PTR"

/-- A DNS error object (src/types.ts DnsError): an Error with optional
code, syscall, detail.  Fields the integration never reads (errno,
hostname, stack) are omitted. -/
structure DnsError where
  message : String
  code : Option String
  syscall : Option String
  detail : Option String
deriving DecidableEq

/-- One typed DNS answer record.  A and AAAA queries return address/ttl
objects, MX returns exchange/priority objects, SOA returns an object whose
nsname field is read, TXT returns arrays of string chunks, and CNAME, NS
and PTR return plain hostname strings. -/
inductive DnsRecord
  | addrRec (address : String) (ttl : Nat)
  | mxRec (exchange : String) (priority : Nat)
  | soaRec (nsname : String)
  | txtRec (chunks : List String)
  | strRec (s : String)
deriving DecidableEq

/-- JavaScript property access value.address: undefined unless the record
is an address record. -/
def DnsRecord.addressField : DnsRecord → Option String
  | .addrRec a _ => some a
  | _ => none

/-- JavaScript property access value.exchange. -/
def DnsRecord.exchangeField : DnsRecord → Option String
  | .mxRec e _ => some e
  | _ => none

/-- JavaScript property access value.nsname. -/
def DnsRecord.nsnameField : DnsRecord → Option String
  | .soaRec n => some n
  | _ => none

/-- JavaScript template-literal coercion of a record value: plain objects
print as [object Object], arrays join with commas, strings print
themselves. -/
def DnsRecord.jsString : DnsRecord → String
  | .addrRec _ _ => "[object Object]"
  | .mxRec _ _ => "[object Object]"
  | .soaRec _ => "[object Object]"
  | .txtRec chunks => String.intercalate "," chunks
  | .strRec s => s

/-- Template-literal coercion of a possibly-undefined string field. -/
def jsOptField (o : Option String) : String :=
  match o with
  | none => "undefined"
  | some s => s

/-- Template-literal coercion of a possibly-undefined record value. -/
def jsOptValue (o : Option DnsRecord) : String :=
  match o with
  | none => "undefined"
  | some r => r.jsString

/-- Per-query-type result record (src/types.ts DnsResult). -/
structure DnsResult where
  results : List DnsRecord
  error : Option DnsError
  searched : Bool
  elapsedTime : Option Nat
deriving DecidableEq

/-- The per-subject answer object (src/types.ts DnsAnswer): record-type
keys mapping to DnsResult, in insertion order, plus the side order array
the source keeps under the key __order. -/
structure DnsAnswer where
  entries : List (RecType × DnsResult)
  __order : List RecType
deriving DecidableEq

/-- JavaScript property read answers[type]: undefined when the key is
absent. -/
def answersGet (answers : DnsAnswer) (t : RecType) : Option DnsResult :=
  (answers.entries.find? (fun p => p.fst == t)).map Prod.snd

/-- JavaScript assignment answers[type] = r for a key that is present
(assignment to an existing key keeps insertion order). -/
def setRecord (entries : List (RecType × DnsResult)) (t : RecType) (r : DnsResult) :
    List (RecType × DnsResult) :=
  entries.map (fun p => if p.fst == t then (p.fst, r) else p)

/-- A lookup subject as handed in by the platform (Entity). -/
structure Entity where
  value : String
  isIP : Bool
  isPrivateIP : Bool
  isDomain : Bool
deriving DecidableEq

/-- One configured query type (src/types.ts QueryType); the display field
is never read by the integration. -/
structure QueryType where
  value : String
deriving DecidableEq

/-- The resultsToShow option value (src/types.ts ResultsToShow). -/
inductive ResultsToShow
  | always
  | answerOnly
deriving DecidableEq

/-- The user options (src/types.ts Options). -/
structure Options where
  dns : String
  privateIpOnly : Bool
  queryTypes : List QueryType
  resultsToShow : ResultsToShow
deriving DecidableEq

/-- The fixed code-to-message table DNS_ERRORS of integration.ts. -/
def DNS_ERRORS : String → Option String
  | "ENODATA" => some "DNS server returned an answer with no data."
  | "EFORMERR" => some "DNS server claims query was misformatted."
  | "ESERVFAIL" => some "DNS server returned general failure."
  | "ENOTFOUND" => some "Domain name not found."
  | "ENOTIMP" => some "DNS server does not implement the requested operation."
  | "EREFUSED" => some "DNS server refused query."
  | "EBADQUERY" => some "Misformatted DNS query."
  | "EBADNAME" => some "Misformatted host name."
  | "EBADFAMILY" => some "Unsupported address family."
  | "EBADRESP" => some "Misformatted DNS reply."
  | "ECONNREFUSED" => some "Could not contact DNS servers."
  | "ETIMEOUT" => some "Timeout while contacting DNS servers."
  | "EEOF" => some "End of file."
  | "EFILE" => some "Error reading file."
  | "ENOMEM" => some "Out of memory."
  | "EDESTRUCTION" => some "Channel is being destroyed."
  | "EBADSTR" => some "Misformatted string."
  | "EBADFLAGS" => some "Illegal flags specified."
  | "ENONAME" => some "Given host name is not numeric."
  | "EBADHINTS" => some "Illegal hints flags specified."
  | "ENOTINITIALIZED" => some "c-ares library initialization not yet performed."
  | "ELOADIPHLPAPI" => some "Error loading iphlpapi.dll."
  | "EADDRGETNETWORKPARAMS" => some "Could not find GetNetworkParams function."
  | "ECANCELLED" => some "DNS query cancelled."
  | _ => none

/-- Concurrency cap for the query tasks of one entity (unused by the model
because the per-entity outcome is completion-order independent, see the
header comment). -/
def MAX_TASKS_AT_A_TIME : Nat := 5

/-- Concurrency cap across entities in a batch. -/
def MAX_ENTITIES_AT_A_TIME : Nat := 2

/-- enrichDnsError of integration.ts.  parseErrorToReadableJson is a JSON
round trip over the own properties of the error, which is the identity on
the fields modelled here.  The lookup runs only when the code is a truthy
string; the table code is looked up verbatim, then with an E prefix, and a
hit overwrites both message and detail. -/
def enrichDnsError (dnsError : DnsError) : DnsError :=
  match dnsError.code with
  | none => dnsError
  | some c =>
    if c = "" then dnsError
    else
      match DNS_ERRORS c with
      | some m => { dnsError with message := m, detail := some m }
      | none =>
        match DNS_ERRORS ("E" ++ c) with
        | some m => { dnsError with message := m, detail := some m }
        | none => dnsError

/-- isThrowableError of integration.ts: errors without a truthy code and
the codes ENODATA, ENOTFOUND, EBADRESP are not throwable; everything else
is. -/
def isThrowableError (dnsError : Option DnsError) : Bool :=
  match dnsError with
  | none => false
  | some e =>
    match e.code with
    | none => false
    | some c =>
      if c = "" then false
      else if c == "ENODATA" || c == "ENOTFOUND" || c == "EBADRESP" then false
      else true

/-- isMiss of integration.ts. -/
def isMiss (totalAnswers : Nat) (options : Options) : Bool :=
  match options.resultsToShow with
  | .always => false
  | .answerOnly => totalAnswers == 0

/-- The per-record test inside isDomainNotFound: the record has an error
whose message is the fixed not-found text and whose syscall is not
getHostByAddr (undefined syscall passes the strict inequality). -/
def domainNotFoundRecord (error : Option DnsError) : Bool :=
  match error with
  | none => false
  | some err => err.message == "Domain name not found." && err.syscall != some "getHostByAddr"

/-- isDomainNotFound of integration.ts.  The source iterates
Object.keys(answers), which also yields the __order key, but the guard
(record is an object carrying an error field) rejects the order array, so
iterating the record entries is equivalent. -/
def isDomainNotFound (answers : DnsAnswer) : Bool :=
  answers.entries.any (fun p => domainNotFoundRecord p.snd.error)

/-- The per-record test inside isReverseDnsNotFound: an error with code
ENOTFOUND whose syscall is getHostByAddr. -/
def reverseNotFoundRecord (error : Option DnsError) : Bool :=
  match error with
  | none => false
  | some err => err.code == some "ENOTFOUND" && err.syscall == some "getHostByAddr"

/-- isReverseDnsNotFound of integration.ts (same key iteration remark as
for isDomainNotFound). -/
def isReverseDnsNotFound (answers : DnsAnswer) : Bool :=
  answers.entries.any (fun p => reverseNotFoundRecord p.snd.error)

/-- Number(b) of JavaScript. -/
def bNum (b : Bool) : Nat :=
  if b then 1 else 0

/-- The comparator of sortAnswers: descending result count, ties broken by
searched answers first; the guard of the source returns 0 when either key
is missing from the answer object. -/
def recCmp (answers : DnsAnswer) (a b : RecType) : Int :=
  match answersGet answers a, answersGet answers b with
  | some answerA, some answerB =>
    let resultLengthDiff : Int :=
      (answerB.results.length : Int) - (answerA.results.length : Int)
    if resultLengthDiff = 0 then (bNum answerB.searched : Int) - (bNum answerA.searched : Int)
    else resultLengthDiff
  | _, _ => 0

/-- a sorts no later than b under the comparator (comparator value at most
0 keeps a before b). -/
def sortLe (answers : DnsAnswer) (a b : RecType) : Bool :=
  decide (recCmp answers a b ≤ 0)

/-- sortAnswers of integration.ts: sorts the __order array in place with
the comparator.  Array.prototype.sort is stable, which List.mergeSort
models. -/
def sortAnswers (answers : DnsAnswer) : DnsAnswer :=
  { answers with __order := answers.__order.mergeSort (sortLe answers) }

/-- getBlankAnswer of integration.ts: PTR only (already searched) for IP
subjects, the seven domain types (unsearched) otherwise. -/
def getBlankAnswer (entity : Entity) : DnsAnswer :=
  if entity.isIP then
    { entries := [(.PTR, { results := [], error := none, searched := true, elapsedTime := none })]
      __order := [.PTR] }
  else
    { entries :=
        [(.A, { results := [], error := none, searched := false, elapsedTime := none }),
         (.AAAA, { results := [], error := none, searched := false, elapsedTime := none }),
         (.CNAME, { results := [], error := none, searched := false, elapsedTime := none }),
         (.MX, { results := [], error := none, searched := false, elapsedTime := none }),
         (.TXT, { results := [], error := none, searched := false, elapsedTime := none }),
         (.NS, { results := [], error := none, searched := false, elapsedTime := none }),
         (.SOA, { results := [], error := none, searched := false, elapsedTime := none })]
      __order := [.A, .AAAA, .CNAME, .MX, .TXT, .NS, .SOA] }

/-- The +n answers suffix pushed by _getSummaryTags when more than one
answer exists in total. -/
def plusTag (totalAnswers : Nat) : List String :=
  if 1 < totalAnswers then ["+" ++ toString (totalAnswers - 1) ++ " answers"] else []

/-- The branch of _getSummaryTags taken when there is no A record with
results.  Returns none exactly where the source would throw a TypeError:
reading .exchange, .nsname or .address of results[0] when the first
ordered type has no results (unreachable for the answers doLookup builds,
whose order is sorted and whose total matches the stored results). -/
def getSummaryTagsRest (answers : DnsAnswer) (totalAnswers : Nat) : Option (List String) :=
  if 0 < totalAnswers then
    match answers.__order.head? with
    | none => some ["No Answers"]
    | some ty =>
      match answersGet answers ty with
      | none => some ["No Answers"]
      | some recordData =>
        match ty with
        | .MX =>
          recordData.results.head?.map
            (fun v => ("MX " ++ jsOptField v.exchangeField) :: plusTag totalAnswers)
        | .SOA =>
          recordData.results.head?.map
            (fun v => ("SOA " ++ jsOptField v.nsnameField) :: plusTag totalAnswers)
        | .AAAA =>
          recordData.results.head?.map
            (fun v => ("AAAA " ++ jsOptField v.addressField) :: plusTag totalAnswers)
        | _ =>
          some ((ty.toName ++ " " ++ jsOptValue recordData.results.head?) :: plusTag totalAnswers)
  else some ["No Answers"]

/-- _getSummaryTags of integration.ts. -/
def _getSummaryTags (answers : DnsAnswer) (domainNotFound reverseDnsNotFound : Bool)
    (totalAnswers : Nat) : Option (List String) :=
  if domainNotFound then some ["Domain not found"]
  else if reverseDnsNotFound then some ["IP not found"]
  else
    match answersGet answers .A with
    | some aRecord =>
      match aRecord.results with
      | r :: _ => some (("A " ++ jsOptField r.addressField) :: plusTag totalAnswers)
      | [] => getSummaryTagsRest answers totalAnswers
    | none => getSummaryTagsRest answers totalAnswers

/-- A resolver response: dns.resolve with SOA resolves to a bare object,
the other calls resolve to arrays; the source wraps a non-array response
in a one-element array. -/
inductive ResolveValue
  | arr (records : List DnsRecord)
  | scalar (record : DnsRecord)

/-- The black-box resolver: forward queries keyed by the query-type string
(A and AAAA are issued with ttl annotations via resolve4/resolve6),
reverse queries, and the configured server list of dns.getServers(). -/
structure Resolver where
  resolve : String → String → Except DnsError ResolveValue
  reverse : String → Except DnsError (List String)
  servers : List String

/-- One forward query task of doLookup: on success the results are stored
(wrapping a scalar) and searched is set by the finally block; a query
error is classified, and a throwable classification re-raises the raw
error while a recoverable one is recorded on the result. -/
def runQueryTask (resolver : Resolver) (name : String) (tyValue : String) :
    Except DnsError DnsResult :=
  match resolver.resolve name tyValue with
  | .ok v =>
    let rs := match v with | .arr l => l | .scalar r => [r]
    .ok { results := rs, error := none, searched := true, elapsedTime := some 0 }
  | .error queryErr =>
    if isThrowableError (some (enrichDnsError queryErr)) then .error queryErr
    else .ok { results := [], error := some (enrichDnsError queryErr), searched := true,
               elapsedTime := some 0 }

/-- The reverse lookup task for an IP entity.  The blank PTR record starts
searched, so the task never touches the flag. -/
def runReverseTask (resolver : Resolver) (ip : String) : Except DnsError DnsResult :=
  match resolver.reverse ip with
  | .ok hostnames =>
    .ok { results := hostnames.map DnsRecord.strRec, error := none, searched := true,
          elapsedTime := some 0 }
  | .error queryErr =>
    if isThrowableError (some (enrichDnsError queryErr)) then .error queryErr
    else .ok { results := [], error := some (enrichDnsError queryErr), searched := true,
               elapsedTime := some 0 }

/-- The query-type strings that are keys of a blank domain answer. -/
def parseDomainRecType : String → Option RecType
  | "A" => some .A
  | "AAAA" => some .AAAA
  | "CNAME" => some .CNAME
  | "MX" => some .MX
  | "TXT" => some .TXT
  | "NS" => some .NS
  | "SOA" => some .SOA
  | _ => none

/-- The TypeError raised when a configured query type is not a key of the
answer object (reading properties of undefined); it has no code, so the
catch block of the task would crash again while recording it, and it
escapes as a fatal error. -/
def jsUndefinedRecordError : DnsError :=
  { message := "Cannot set properties of undefined", code := none, syscall := none,
    detail := none }

/-- Runs the forward query tasks of a domain entity over its configured
query types, accumulating the record writes and the running totalAnswers
(which only grows on success; a recoverable record error stores empty
results). -/
def domainTasksRun (resolver : Resolver) (name : String) (qts : List QueryType)
    (entries : List (RecType × DnsResult)) (total : Nat) :
    Except DnsError (List (RecType × DnsResult) × Nat) :=
  match qts with
  | [] => .ok (entries, total)
  | ty :: rest =>
    match parseDomainRecType ty.value with
    | none => .error jsUndefinedRecordError
    | some rt =>
      match runQueryTask resolver name ty.value with
      | .error queryErr => .error queryErr
      | .ok r => domainTasksRun resolver name rest (setRecord entries rt r)
          (total + r.results.length)

/-- The task phase of doLookup for one entity: builds the blank answer,
runs the reverse task (IP) or one task per configured query type
(defaulting to A when the list is empty), then re-sorts the answer;
returns the sorted answer and totalAnswers, or the raw fatal error. -/
def entityAnswerTotal (resolver : Resolver) (options : Options) (entity : Entity) :
    Except DnsError (DnsAnswer × Nat) :=
  let blank := getBlankAnswer entity
  if entity.isIP then
    match runReverseTask resolver entity.value with
    | .error queryErr => .error queryErr
    | .ok r =>
      .ok (sortAnswers { blank with entries := setRecord blank.entries .PTR r },
           r.results.length)
  else
    let qts := if options.queryTypes.isEmpty then [{ value := "A" }] else options.queryTypes
    match domainTasksRun resolver entity.value qts blank.entries 0 with
    | .error queryErr => .error queryErr
    | .ok (entries, total) => .ok (sortAnswers { blank with entries := entries }, total)

/-- The details object pushed for a non-miss subject. -/
structure DnsLookupDetails where
  answer : DnsAnswer
  totalAnswers : Nat
  server : List String
  domainNotFound : Bool
  reverseDnsNotFound : Bool
deriving DecidableEq

/-- The data part of a lookup result (src/types.ts LookupResult). -/
structure LookupData where
  summary : List String
  details : Option DnsLookupDetails
deriving DecidableEq

/-- One per-subject lookup outcome. -/
structure LookupResult where
  entity : Entity
  data : LookupData
deriving DecidableEq

/-- The whole per-entity unit of doLookup: private-IP filter (an ignored
entity pushes nothing), the task phase, the miss check, and the assembly
of the outcome with the not-found flags gated by the entity kind.  A fatal
task error propagates as the raw error. -/
def processEntity (resolver : Resolver) (options : Options) (entity : Entity) :
    Except DnsError (Option LookupResult) :=
  if options.privateIpOnly && entity.isIP && !entity.isPrivateIP then .ok none
  else
    match entityAnswerTotal resolver options entity with
    | .error queryErr => .error queryErr
    | .ok (answers, totalAnswers) =>
      if isMiss totalAnswers options then
        .ok (some { entity := entity, data := { summary := [], details := none } })
      else
        match _getSummaryTags answers (isDomainNotFound answers) (isReverseDnsNotFound answers)
            totalAnswers with
        | none => .error jsUndefinedRecordError
        | some tags =>
          .ok (some ⟨entity, ⟨tags, some ⟨answers, totalAnswers, resolver.servers,
            entity.isDomain && isDomainNotFound answers,
            entity.isIP && isReverseDnsNotFound answers⟩⟩⟩)

/-- The module-level previousDns update at the top of doLookup: when the
dns option is a non-empty string different from the last applied one,
dns.setServers runs and previousDns is updated.  Returns the new
previousDns and whether the reconfiguration side effect ran. -/
def stepDns (previousDns : Option String) (dnsOption : String) : Option String × Bool :=
  if decide (0 < dnsOption.length) && previousDns != some dnsOption then (some dnsOption, true)
  else (previousDns, false)

/-- The in-place default of doLookup: processing any domain entity with an
empty queryTypes list pushes an A entry into the caller-shared options
object.  The mutation is modelled by the options value doLookup hands
back (meaningful for runs that complete). -/
def mutatedOptions (options : Options) (entities : List Entity) : Options :=
  if options.queryTypes.isEmpty && entities.any (fun e => !e.isIP) then
    { options with queryTypes := [{ value := "A" }] }
  else options

/-- Folds the per-entity outcomes over a completion schedule: each index
appends its entity outcome (if any) on completion; a fatal error aborts
the batch. -/
def batchAccum (resolver : Resolver) (options : Options) (entities : List Entity)
    (acc : Except DnsError (List LookupResult)) (sched : List Nat) :
    Except DnsError (List LookupResult) :=
  match sched with
  | [] => acc
  | i :: rest =>
    match acc with
    | .error e => batchAccum resolver options entities (.error e) rest
    | .ok rs =>
      match entities[i]? with
      | none => batchAccum resolver options entities (.ok rs) rest
      | some entity =>
        match processEntity resolver options entity with
        | .error queryErr =>
          batchAccum resolver options entities (.error (enrichDnsError queryErr)) rest
        | .ok none => batchAccum resolver options entities (.ok rs) rest
        | .ok (some r) => batchAccum resolver options entities (.ok (rs ++ [r])) rest

/-- doLookup of integration.ts over an explicit completion schedule.
Returns the batch outcome (the outcome list, or the classified fatal
error thrown by the catch block), the previousDns state paired with the
reconfiguration flag, and the options object as left behind by the
in-place queryTypes default. -/
def doLookup (resolver : Resolver) (previousDns : Option String) (options : Options)
    (entities : List Entity) (sched : List Nat) :
    Except DnsError (List LookupResult) × (Option String × Bool) × Options :=
  (batchAccum resolver options entities (.ok []) sched,
   stepDns previousDns options.dns,
   mutatedOptions options entities)

/-- A completion schedule across entities is realizable under
async.eachLimit with the given limit iff it is a permutation of the
indices in which the k-th finisher had already been started. -/
def feasibleSchedule (n limit : Nat) (sched : List Nat) : Bool :=
  sched.length == n &&
  (List.range n).all (fun i => sched.contains i) &&
  (List.range sched.length).all (fun k => sched.getD k 0 ≤ k + limit - 1)

/-- Total number of dns.setServers reconfigurations over a sequence of
doLookup calls with the given dns option values. -/
def dnsReconfigCount (previousDns : Option String) (dnsValues : List String) : Nat :=
  match dnsValues with
  | [] => 0
  | d :: rest =>
    let s := stepDns previousDns d
    bNum s.snd + dnsReconfigCount s.fst rest

/-! Proof-support definitions: sort keys for reasoning about the
comparator, the outcome selector of the batch fold, the per-type summary
tag format, and concrete fixtures for witnesses and counterexamples. -/

/-- Result count of a record type, 0 for a missing key. -/
def resCountD (answers : DnsAnswer) (t : RecType) : Nat :=
  ((answersGet answers t).map (fun r => r.results.length)).getD 0

/-- Searched flag of a record type, false for a missing key. -/
def searchedD (answers : DnsAnswer) (t : RecType) : Bool :=
  ((answersGet answers t).map DnsResult.searched).getD false

/-- The key-based total preorder underlying the sort comparator:
descending result count, ties broken by searched keys first.  It agrees
with sortLe whenever both compared keys are present in the answer. -/
def keyLe (answers : DnsAnswer) (a b : RecType) : Bool :=
  decide (resCountD answers b < resCountD answers a) ||
  (resCountD answers b == resCountD answers a &&
    decide (bNum (searchedD answers b) ≤ bNum (searchedD answers a)))

/-- The outcome an entity index contributes to the batch (none when out of
range, skipped, or fatally failed). -/
def outcomeAt (resolver : Resolver) (options : Options) (entities : List Entity) (i : Nat) :
    Option LookupResult :=
  match entities[i]? with
  | none => none
  | some entity =>
    match processEntity resolver options entity with
    | .ok (some r) => some r
    | _ => none

/-- The type-specific primary summary tag for the first ordered type: MX
uses the exchange, SOA the name server, AAAA the address, and every other
type the template-literal coercion of the raw first value. -/
def primaryTag (ty : RecType) (v : DnsRecord) : String :=
  match ty with
  | .MX => "MX " ++ jsOptField v.exchangeField
  | .SOA => "SOA " ++ jsOptField v.nsnameField
  | .AAAA => "AAAA " ++ jsOptField v.addressField
  | _ => ty.toName ++ " " ++ v.jsString

/-- Fixture: a resolver whose reverse lookups succeed with one hostname
derived from the queried IP and whose forward A lookups succeed with one
address record. -/
def okResolver : Resolver :=
  { resolve := fun _ ty =>
      if ty = "A" then .ok (.arr [.addrRec "93.184.216.34" 300])
      else .error { message := "no data", code := some "ENODATA", syscall := some ("query" ++ ty),
                    detail := none }
    reverse := fun ip => .ok ["host-" ++ ip]
    servers := ["8.8.8.8"] }

/-- Fixture: a private IP entity. -/
def ipEntity1 : Entity :=
  { value := "10.0.0.1", isIP := true, isPrivateIP := true, isDomain := false }

/-- Fixture: a second private IP entity. -/
def ipEntity2 : Entity :=
  { value := "10.0.0.2", isIP := true, isPrivateIP := true, isDomain := false }

/-- Fixture: a domain entity. -/
def domainEntity : Entity :=
  { value := "example.com", isIP := false, isPrivateIP := false, isDomain := true }

/-- Fixture: options with no DNS server override, no filtering and no
configured query types. -/
def plainOptions : Options :=
  { dns := "", privateIpOnly := false, queryTypes := [], resultsToShow := .always }

/-- Fixture: the batch outcome list of the two IP entities under the
in-order completion schedule. -/
def orderedOuts : List LookupResult :=
  match (doLookup okResolver none plainOptions [ipEntity1, ipEntity2] (List.range 2)).fst with
  | .ok l => l
  | .error _ => []

/-- Fixture: the batch outcome list of a single-domain batch with empty
configured query types (exercises the in-place A default). -/
def domainOuts : List LookupResult :=
  match (doLookup okResolver none plainOptions [domainEntity] [0]).fst with
  | .ok l => l
  | .error _ => []

/-- Fixture: a raw fatal resolver error. -/
def timeoutError : DnsError :=
  { message := "raw timeout", code := some "ETIMEOUT", syscall := some "getHostByAddr",
    detail := none }

/-- Fixture: a resolver whose reverse lookups fail with the fatal timeout
error. -/
def failingResolver : Resolver :=
  { resolve := fun _ _ => .error timeoutError
    reverse := fun _ => .error timeoutError
    servers := ["8.8.8.8"] }

/-- Fixture: a raw not-found error as raised by a forward A query. -/
def notFoundError : DnsError :=
  { message := "queryA ENOTFOUND example.invalid", code := some "ENOTFOUND",
    syscall := some "queryA", detail := some "raw detail" }

/-- The PTR record left behind by a recoverable reverse-lookup error. -/
def recoverableRecord (e : DnsError) : DnsResult :=
  { results := [], error := some (enrichDnsError e), searched := true, elapsedTime := some 0 }

/-- The answer of an IP subject whose reverse lookup failed recoverably. -/
def recoverableAnswer (e : DnsError) : DnsAnswer :=
  { entries := [(.PTR, recoverableRecord e)], __order := [.PTR] }

/-- Fixture: a one-key answer holding a searched PTR record with one
hostname result. -/
def ptrAnswer1 : DnsAnswer :=
  { entries := [(.PTR, { results := [.strRec "host-10.0.0.1"], error := none, searched := true,
                         elapsedTime := some 0 })]
    __order := [.PTR] }

/-- Fixture: a two-key answer with one A result and two MX results, as in
the sorted answer of a domain subject with three total answers. -/
def mixedAnswer : DnsAnswer :=
  { entries := [(.MX, { results := [.mxRec "mail1.example" 10, .mxRec "mail2.example" 20],
                        error := none, searched := true, elapsedTime := some 0 }),
                (.A, { results := [.addrRec "93.184.216.34" 300], error := none, searched := true,
                       elapsedTime := some 0 })]
    __order := [.MX, .A] }

/-! Helper lemmas. -/

/-- A string of length zero is the empty string. -/
theorem string_eq_empty_of_length_eq_zero (d : String) (h : d.length = 0) : d = "" := by
  cases d with
  | mk data =>
    cases data with
    | nil => rfl
    | cons a l => simp [String.length] at h

/-- enrichDnsError only rewrites message and detail; the code survives. -/
theorem enrichDnsError_code (e : DnsError) : (enrichDnsError e).code = e.code := by
  unfold enrichDnsError
  split
  · rfl
  · split
    · rfl
    · split
      · rfl
      · split <;> rfl

/-- Throwability only looks at the code, so classification does not change
it. -/
theorem isThrowableError_enrich (e : DnsError) :
    isThrowableError (some (enrichDnsError e)) = isThrowableError (some e) := by
  simp only [isThrowableError, enrichDnsError_code]

/-- A batch that has already failed stays failed. -/
theorem batchAccum_error (resolver : Resolver) (options : Options) (entities : List Entity)
    (e : DnsError) : ∀ sched, batchAccum resolver options entities (.error e) sched = .error e
  | [] => rfl
  | _ :: rest => by
    rw [batchAccum]
    exact batchAccum_error resolver options entities e rest

/-- A per-entity outcome always names its own entity. -/
theorem processEntity_entity (resolver : Resolver) (options : Options) (entity : Entity)
    (r : LookupResult) (h : processEntity resolver options entity = .ok (some r)) :
    r.entity = entity := by
  unfold processEntity at h
  split at h
  · simp at h
  · split at h
    · exact absurd h (by simp)
    · split at h
      · simp only [Except.ok.injEq, Option.some.injEq] at h
        rw [← h]
      · split at h
        · exact absurd h (by simp)
        · simp only [Except.ok.injEq, Option.some.injEq] at h
          rw [← h]

/-- The per-entity unit yields no outcome only for an entity skipped by
the private-IP filter. -/
theorem processEntity_ok_none (resolver : Resolver) (options : Options) (entity : Entity)
    (h : processEntity resolver options entity = .ok none) :
    (options.privateIpOnly && entity.isIP && !entity.isPrivateIP) = true := by
  unfold processEntity at h
  split at h
  · assumption
  · split at h
    · exact absurd h (by simp)
    · split at h
      · simp at h
      · split at h
        · exact absurd h (by simp)
        · simp at h

/-- A successful batch fold consists of the accumulator followed by the
outcomes of the scheduled indices, in schedule order. -/
theorem batchAccum_ok_eq (resolver : Resolver) (options : Options) (entities : List Entity) :
    ∀ (sched : List Nat) (rs outs : List LookupResult),
      batchAccum resolver options entities (.ok rs) sched = .ok outs →
      outs = rs ++ sched.filterMap (outcomeAt resolver options entities)
  | [], rs, outs, h => by
    simp only [batchAccum, Except.ok.injEq] at h
    simp [h]
  | i :: rest, rs, outs, h => by
    rw [batchAccum] at h
    split at h
    · next hent =>
      have ih := batchAccum_ok_eq resolver options entities rest rs outs h
      simp [ih, List.filterMap_cons, outcomeAt, hent]
    · next entity hent =>
      split at h
      · next qe hproc =>
        rw [batchAccum_error] at h
        exact absurd h (by simp)
      · next hproc =>
        have ih := batchAccum_ok_eq resolver options entities rest rs outs h
        simp [ih, List.filterMap_cons, outcomeAt, hent, hproc]
      · next r hproc =>
        have ih := batchAccum_ok_eq resolver options entities rest (rs ++ [r]) outs h
        simp [ih, List.filterMap_cons, outcomeAt, hent, hproc]

/-- In a successful batch with no skippable entity, the outcome entities
follow the completion schedule. -/
theorem batchAccum_map_entity (resolver : Resolver) (options : Options) (entities : List Entity)
    (hnoskip : ∀ e ∈ entities, (options.privateIpOnly && e.isIP && !e.isPrivateIP) = false) :
    ∀ (sched : List Nat) (rs outs : List LookupResult),
      batchAccum resolver options entities (.ok rs) sched = .ok outs →
      outs.map LookupResult.entity =
        rs.map LookupResult.entity ++ sched.filterMap (fun i => entities[i]?)
  | [], rs, outs, h => by
    simp only [batchAccum, Except.ok.injEq] at h
    simp [h]
  | i :: rest, rs, outs, h => by
    rw [batchAccum] at h
    split at h
    · next hent =>
      have ih := batchAccum_map_entity resolver options entities hnoskip rest rs outs h
      simp [ih, List.filterMap_cons, hent]
    · next entity hent =>
      split at h
      · next qe hproc =>
        rw [batchAccum_error] at h
        exact absurd h (by simp)
      · next hproc =>
        have hmem : entity ∈ entities := List.getElem?_mem hent
        have := processEntity_ok_none resolver options entity hproc
        rw [hnoskip entity hmem] at this
        exact absurd this (by simp)
      · next r hproc =>
        have ih := batchAccum_map_entity resolver options entities hnoskip rest (rs ++ [r]) outs h
        have hre := processEntity_entity resolver options entity r hproc
        simp [ih, List.filterMap_cons, hent, hre]

/-- Enumerating a list by its own indices reproduces the list. -/
theorem filterMap_range_getElem {α : Type} :
    ∀ (l : List α), (List.range l.length).filterMap (fun i => l[i]?) = l
  | [] => by simp
  | a :: l => by
    rw [List.length_cons, List.range_succ_eq_map, List.filterMap_cons]
    simp only [List.getElem?_cons_zero, List.filterMap_map, Function.comp_def,
      Nat.succ_eq_add_one, List.getElem?_cons_succ]
    rw [filterMap_range_getElem l]

/-- Merging depends only on the comparator values at pairs drawn from
the two inputs. -/
theorem merge_congr {α : Type} {le le2 : α → α → Bool} :
    ∀ (xs ys : List α), (∀ x ∈ xs, ∀ y ∈ ys, le x y = le2 x y) →
      List.merge xs ys le = List.merge xs ys le2
  | [], ys, _ => by simp
  | x :: xs, [], _ => by simp
  | x :: xs, y :: ys, h => by
    rw [List.cons_merge_cons, List.cons_merge_cons, h x (by simp) y (by simp)]
    cases hxy : le2 x y
    · simp only [Bool.false_eq_true, if_false]
      rw [merge_congr (x :: xs) ys (fun u hu v hv => h u hu v (List.mem_cons_of_mem _ hv))]
    · simp only [if_true]
      rw [merge_congr xs (y :: ys) (fun u hu v hv => h u (List.mem_cons_of_mem _ hu) v hv)]
termination_by xs ys => xs.length + ys.length

/-- Sorting depends only on the comparator values at pairs drawn from
the sorted list. -/
theorem mergeSort_congr {α : Type} {le le2 : α → α → Bool} :
    ∀ (l : List α), (∀ x ∈ l, ∀ y ∈ l, le x y = le2 x y) →
      l.mergeSort le = l.mergeSort le2
  | [], _ => by simp
  | [a], _ => by simp
  | a :: b :: xs, h => by
    have hlt1 : (List.splitInTwo ⟨a :: b :: xs, rfl⟩).1.1.length < xs.length + 1 + 1 := by
      simp [List.splitInTwo_fst]
      omega
    have hlt2 : (List.splitInTwo ⟨a :: b :: xs, rfl⟩).2.1.length < xs.length + 1 + 1 := by
      simp [List.splitInTwo_snd]
      omega
    have hmem : ∀ z : α, (z ∈ (List.splitInTwo ⟨a :: b :: xs, rfl⟩).1.1 ∨
        z ∈ (List.splitInTwo ⟨a :: b :: xs, rfl⟩).2.1) → z ∈ a :: b :: xs := by
      intro z hz
      have happ : (List.splitInTwo ⟨a :: b :: xs, rfl⟩).1.1 ++
          (List.splitInTwo ⟨a :: b :: xs, rfl⟩).2.1 = a :: b :: xs :=
        List.splitInTwo_fst_append_splitInTwo_snd
          (⟨a :: b :: xs, rfl⟩ : { l : List α // l.length = xs.length + 2 })
      rw [← happ]
      rcases hz with hz | hz
      · exact List.mem_append_left _ hz
      · exact List.mem_append_right _ hz
    rw [List.mergeSort, List.mergeSort]
    rw [mergeSort_congr (List.splitInTwo ⟨a :: b :: xs, rfl⟩).1.1
      (fun x hx y hy => h x (hmem x (Or.inl hx)) y (hmem y (Or.inl hy)))]
    rw [mergeSort_congr (List.splitInTwo ⟨a :: b :: xs, rfl⟩).2.1
      (fun x hx y hy => h x (hmem x (Or.inr hx)) y (hmem y (Or.inr hy)))]
    exact merge_congr _ _ (fun x hx y hy =>
      h x (hmem x (Or.inl (List.mem_mergeSort.mp hx))) y (hmem y (Or.inr (List.mem_mergeSort.mp hy))))
termination_by l => l.length

/-- The key-based comparator is transitive. -/
theorem keyLe_trans (answers : DnsAnswer) : ∀ a b c : RecType,
    keyLe answers a b → keyLe answers b c → keyLe answers a c := by
  intro a b c h1 h2
  simp only [keyLe, Bool.or_eq_true, decide_eq_true_eq, Bool.and_eq_true, beq_iff_eq] at h1 h2 ⊢
  omega

/-- The key-based comparator is total. -/
theorem keyLe_total (answers : DnsAnswer) : ∀ a b : RecType,
    keyLe answers a b || keyLe answers b a := by
  intro a b
  simp only [keyLe, Bool.or_eq_true, decide_eq_true_eq, Bool.and_eq_true, beq_iff_eq]
  omega

/-- On keys present in the answer, the source comparator agrees with the
key-based comparator. -/
theorem sortLe_eq_keyLe (answers : DnsAnswer) (a b : RecType)
    (ha : (answersGet answers a).isSome) (hb : (answersGet answers b).isSome) :
    sortLe answers a b = keyLe answers a b := by
  obtain ⟨ra, hra⟩ := Option.isSome_iff_exists.mp ha
  obtain ⟨rb, hrb⟩ := Option.isSome_iff_exists.mp hb
  simp only [sortLe, recCmp, keyLe, resCountD, searchedD, hra, hrb, Option.map_some',
    Option.getD_some]
  by_cases hd : ((rb.results.length : Int) - (ra.results.length : Int)) = 0
  · rw [if_pos hd, Bool.eq_iff_iff]
    simp only [decide_eq_true_eq, Bool.or_eq_true, Bool.and_eq_true, beq_iff_eq, bNum]
    rcases hsa : ra.searched <;> rcases hsb : rb.searched <;> simp <;> omega
  · rw [if_neg hd, Bool.eq_iff_iff]
    simp only [decide_eq_true_eq, Bool.or_eq_true, Bool.and_eq_true, beq_iff_eq, bNum]
    rcases hsa : ra.searched <;> rcases hsb : rb.searched <;> simp <;> omega

/-- Under the presence condition, sortAnswers computes the mergeSort of
the order by the key-based comparator. -/
theorem sortAnswers_order_congr (answers : DnsAnswer)
    (h : ∀ t ∈ answers.__order, (answersGet answers t).isSome) :
    (sortAnswers answers).__order = answers.__order.mergeSort (keyLe answers) :=
  mergeSort_congr answers.__order (fun x hx y hy => sortLe_eq_keyLe answers x y (h x hx) (h y hy))

/-! Claim theorems. -/

/-- C4: the blank Answer of an IP subject maps exactly PTR with empty
results, null error and searched true; the blank Answer of a domain
subject maps exactly the seven domain types, each with empty results,
null error and searched false; in both cases the order array is a
permutation of the mapping keys. -/
theorem getBlankAnswer_invariants (entity : Entity) :
    (getBlankAnswer entity).entries =
      (if entity.isIP then
        [(.PTR, { results := [], error := none, searched := true, elapsedTime := none })]
      else
        [(.A, { results := [], error := none, searched := false, elapsedTime := none }),
         (.AAAA, { results := [], error := none, searched := false, elapsedTime := none }),
         (.CNAME, { results := [], error := none, searched := false, elapsedTime := none }),
         (.MX, { results := [], error := none, searched := false, elapsedTime := none }),
         (.TXT, { results := [], error := none, searched := false, elapsedTime := none }),
         (.NS, { results := [], error := none, searched := false, elapsedTime := none }),
         (.SOA, { results := [], error := none, searched := false, elapsedTime := none })])
    ∧ (getBlankAnswer entity).__order =
        (if entity.isIP then [.PTR] else [.A, .AAAA, .CNAME, .MX, .TXT, .NS, .SOA])
    ∧ List.Perm (getBlankAnswer entity).__order ((getBlankAnswer entity).entries.map Prod.fst) := by
  cases h : entity.isIP with
  | false =>
    refine ⟨by simp [getBlankAnswer, h], by simp [getBlankAnswer, h], ?_⟩
    simp only [getBlankAnswer, h, Bool.false_eq_true, if_false]
    decide
  | true =>
    refine ⟨by simp [getBlankAnswer, h], by simp [getBlankAnswer, h], ?_⟩
    simp only [getBlankAnswer, h, if_true]
    decide

/-- C7: no single record error can make both the domain-not-found test
(message is the fixed text, syscall is not getHostByAddr) and the
reverse-not-found test (code ENOTFOUND, syscall getHostByAddr) true,
because the syscall conditions are contradictory. -/
theorem notFound_predicates_exclusive (error : Option DnsError) :
    (domainNotFoundRecord error && reverseNotFoundRecord error) = false := by
  rcases error with _ | err
  · rfl
  · simp only [domainNotFoundRecord, reverseNotFoundRecord]
    cases hs : err.syscall == some "getHostByAddr" <;> simp [bne, hs]

/-- The repeated application of the previousDns update with an unchanged
dns option neither reconfigures nor moves the state. -/
theorem stepDns_stepDns (previousDns : Option String) (d : String) :
    stepDns (stepDns previousDns d).fst d = ((stepDns previousDns d).fst, false) := by
  by_cases h : (decide (0 < d.length) && previousDns != some d) = true
  · have h1 : stepDns previousDns d = (some d, true) := by unfold stepDns; rw [if_pos h]
    rw [h1]
    show stepDns (some d) d = (some d, false)
    unfold stepDns
    simp
  · have h1 : stepDns previousDns d = (previousDns, false) := by unfold stepDns; rw [if_neg h]
    rw [h1]
    show stepDns previousDns d = (previousDns, false)
    exact h1

/-- C9: the resolver server list is reconfigured exactly when the dns
option is non-empty and differs from the last applied value; a second
consecutive application with the same value never reconfigures; any
number of further runs with the unchanged value perform zero additional
reconfigurations; and doLookup steps the previousDns state through
stepDns. -/
theorem stepDns_idempotent (previousDns : Option String) (d : String) :
    ((stepDns previousDns d).snd = true ↔ (d ≠ "" ∧ previousDns ≠ some d))
    ∧ (stepDns (stepDns previousDns d).fst d).snd = false
    ∧ (∀ n, dnsReconfigCount (stepDns previousDns d).fst (List.replicate n d) = 0)
    ∧ (∀ resolver options entities sched, options.dns = d →
        (doLookup resolver previousDns options entities sched).snd.fst = stepDns previousDns d) := by
  refine ⟨?_, ?_, ?_, ?_⟩
  · by_cases h : (decide (0 < d.length) && previousDns != some d) = true
    · have h1 : stepDns previousDns d = (some d, true) := by unfold stepDns; rw [if_pos h]
      rw [h1]
      simp only [Bool.and_eq_true, bne_iff_ne, decide_eq_true_eq] at h
      simp only [true_iff]
      refine ⟨fun he => ?_, h.2⟩
      rw [he] at h
      exact absurd h.1 (by decide)
    · have h1 : stepDns previousDns d = (previousDns, false) := by unfold stepDns; rw [if_neg h]
      rw [h1]
      simp only [Bool.and_eq_true, bne_iff_ne, decide_eq_true_eq, not_and] at h
      simp only [Bool.false_eq_true, false_iff, not_and]
      intro hne
      have hlen : 0 < d.length := by
        rcases Nat.eq_zero_or_pos d.length with h0 | hpos
        · exact absurd (string_eq_empty_of_length_eq_zero d h0) hne
        · exact hpos
      exact h hlen
  · rw [stepDns_stepDns]
  · intro n
    induction n with
    | zero => rfl
    | succ k ih =>
      rw [List.replicate_succ]
      unfold dnsReconfigCount
      rw [stepDns_stepDns]
      simpa [bNum] using ih
  · intro resolver options entities sched hd
    simp [doLookup, hd]

/-- C3: with a string code, the classifier looks the code up verbatim and
then with an E prefix; a hit overwrites both message and detail with the
table text (ENOTFOUND yields the fixed not-found message), and a double
miss leaves the raw error untouched. -/
theorem enrichDnsError_table_lookup (e : DnsError) (c : String) (hc : e.code = some c) :
    (∀ m, DNS_ERRORS c = some m →
      enrichDnsError e = { e with message := m, detail := some m })
    ∧ (∀ m, DNS_ERRORS c = none → DNS_ERRORS ("E" ++ c) = some m →
      enrichDnsError e = { e with message := m, detail := some m })
    ∧ (DNS_ERRORS c = none → DNS_ERRORS ("E" ++ c) = none → enrichDnsError e = e)
    ∧ (c = "ENOTFOUND" → (enrichDnsError e).message = "Domain name not found.") := by
  have hemp : DNS_ERRORS "" = none := by decide
  have h1 : ∀ m, DNS_ERRORS c = some m →
      enrichDnsError e = { e with message := m, detail := some m } := by
    intro m hm
    by_cases hce : c = ""
    · rw [hce, hemp] at hm
      exact absurd hm (by simp)
    · simp [enrichDnsError, hc, hce, hm]
  refine ⟨h1, ?_, ?_, ?_⟩
  · intro m hm hmE
    by_cases hce : c = ""
    · rw [hce] at hmE
      rw [(by decide : DNS_ERRORS ("E" ++ "") = none)] at hmE
      exact absurd hmE (by simp)
    · simp [enrichDnsError, hc, hce, hm, hmE]
  · intro hm hmE
    by_cases hce : c = ""
    · simp [enrichDnsError, hc, hce]
    · simp [enrichDnsError, hc, hce, hm, hmE]
  · intro hce
    rw [h1 "Domain name not found." (by rw [hce]; decide)]

/-- C5: for an answer whose ordered keys are all present, the sorted
display order is descending in result count with ties placing searched
keys first (hence any key with nonzero results precedes every key with
zero results), and the sort is stable: keys with equal result count and
equal searched flag keep their relative order. -/
theorem sortAnswers_ordering (answers : DnsAnswer)
    (h : ∀ t ∈ answers.__order, (answersGet answers t).isSome) :
    ((sortAnswers answers).__order.Pairwise (fun a b =>
      resCountD answers b ≤ resCountD answers a ∧
      (resCountD answers b = resCountD answers a →
        bNum (searchedD answers b) ≤ bNum (searchedD answers a))))
    ∧ (∀ a b, List.Sublist [a, b] (sortAnswers answers).__order →
        0 < resCountD answers b → 0 < resCountD answers a)
    ∧ (∀ a b, resCountD answers a = resCountD answers b →
        searchedD answers a = searchedD answers b →
        List.Sublist [a, b] answers.__order →
        List.Sublist [a, b] (sortAnswers answers).__order) := by
  have horder := sortAnswers_order_congr answers h
  have hpair : (sortAnswers answers).__order.Pairwise (fun a b => keyLe answers a b = true) := by
    rw [horder]
    exact List.sorted_mergeSort (keyLe_trans answers) (keyLe_total answers) answers.__order
  have hP : (sortAnswers answers).__order.Pairwise (fun a b =>
      resCountD answers b ≤ resCountD answers a ∧
      (resCountD answers b = resCountD answers a →
        bNum (searchedD answers b) ≤ bNum (searchedD answers a))) := by
    refine hpair.imp ?_
    intro a b hab
    simp only [keyLe, Bool.or_eq_true, decide_eq_true_eq, Bool.and_eq_true, beq_iff_eq] at hab
    constructor
    · omega
    · intro hcnt
      omega
  refine ⟨hP, ?_, ?_⟩
  · intro a b hsub hb
    have hrel := List.pairwise_pair.mp (List.Pairwise.sublist hsub hP)
    omega
  · intro a b hcnt hsearch hsub
    rw [horder]
    refine List.pair_sublist_mergeSort (keyLe_trans answers) (keyLe_total answers) ?_ hsub
    simp only [keyLe, Bool.or_eq_true, decide_eq_true_eq, Bool.and_eq_true, beq_iff_eq]
    rw [hcnt, hsearch]
    omega

/-- C6: the summary tags are computed by the fixed branch order: the
domain-not-found flag wins, then the reverse-not-found flag, then an A
record with at least one result (tag A plus address, with a +n-1 answers
suffix when more than one total answer exists), then the first type in
sort order with a type-specific primary tag and the same suffix, and No
Answers when the total is zero. -/
theorem getSummaryTags_cases (answers : DnsAnswer) (domainNotFound reverseDnsNotFound : Bool)
    (totalAnswers : Nat) :
    (domainNotFound = true →
      _getSummaryTags answers domainNotFound reverseDnsNotFound totalAnswers =
        some ["Domain not found"])
    ∧ (domainNotFound = false → reverseDnsNotFound = true →
      _getSummaryTags answers domainNotFound reverseDnsNotFound totalAnswers =
        some ["IP not found"])
    ∧ (domainNotFound = false → reverseDnsNotFound = false →
      ∀ aRecord r rest, answersGet answers .A = some aRecord → aRecord.results = r :: rest →
        _getSummaryTags answers domainNotFound reverseDnsNotFound totalAnswers =
          some (("A " ++ jsOptField r.addressField) :: plusTag totalAnswers))
    ∧ (domainNotFound = false → reverseDnsNotFound = false →
      (∀ aRecord, answersGet answers .A = some aRecord → aRecord.results = []) →
      0 < totalAnswers →
      ∀ ty recordData v rest, answers.__order.head? = some ty →
        answersGet answers ty = some recordData → recordData.results = v :: rest →
        _getSummaryTags answers domainNotFound reverseDnsNotFound totalAnswers =
          some (primaryTag ty v :: plusTag totalAnswers))
    ∧ (domainNotFound = false → reverseDnsNotFound = false →
      (∀ aRecord, answersGet answers .A = some aRecord → aRecord.results = []) →
      totalAnswers = 0 →
      _getSummaryTags answers domainNotFound reverseDnsNotFound totalAnswers =
        some ["No Answers"]) := by
  refine ⟨?_, ?_, ?_, ?_, ?_⟩
  · intro hd
    simp [_getSummaryTags, hd]
  · intro hd hr
    simp [_getSummaryTags, hd, hr]
  · intro hd hr aRecord r rest hA hres
    simp [_getSummaryTags, hd, hr, hA, hres]
  · intro hd hr hAempty htot ty recordData v rest hhead hget hres
    have hrest : getSummaryTagsRest answers totalAnswers =
        some (primaryTag ty v :: plusTag totalAnswers) := by
      unfold getSummaryTagsRest
      rw [if_pos htot, hhead]
      cases ty with
      | MX => simp [hget, hres, primaryTag]
      | SOA => simp [hget, hres, primaryTag]
      | AAAA => simp [hget, hres, primaryTag]
      | A =>
        have := hAempty recordData hget
        rw [this] at hres
        exact absurd hres (by simp)
      | CNAME => simp [hget, hres, primaryTag, jsOptValue]
      | TXT => simp [hget, hres, primaryTag, jsOptValue]
      | NS => simp [hget, hres, primaryTag, jsOptValue]
      | PTR => simp [hget, hres, primaryTag, jsOptValue]
    rcases hA : answersGet answers .A with _ | aRecord
    · simp [_getSummaryTags, hd, hr, hA, hrest]
    · have hre := hAempty aRecord hA
      simp [_getSummaryTags, hd, hr, hA, hre, hrest]
  · intro hd hr hAempty htot
    have hrest : getSummaryTagsRest answers totalAnswers = some ["No Answers"] := by
      unfold getSummaryTagsRest
      rw [if_neg (by omega)]
    rcases hA : answersGet answers .A with _ | aRecord
    · simp [_getSummaryTags, hd, hr, hA, hrest]
    · have hre := hAempty aRecord hA
      simp [_getSummaryTags, hd, hr, hA, hre, hrest]

/-- C8: for an unskipped subject whose tasks settled, the answerOnly
filter with zero total answers yields the miss outcome with empty summary
tags and no details, while the always filter never rules a miss and the
outcome carries the full details: answer, total, server list, and the two
kind-gated not-found flags. -/
theorem resultsToShow_filter (resolver : Resolver) (options : Options) (entity : Entity)
    (answers : DnsAnswer) (totalAnswers : Nat)
    (hskip : (options.privateIpOnly && entity.isIP && !entity.isPrivateIP) = false)
    (h : entityAnswerTotal resolver options entity = .ok (answers, totalAnswers)) :
    (options.resultsToShow = .answerOnly → totalAnswers = 0 →
      processEntity resolver options entity =
        .ok (some { entity := entity, data := { summary := [], details := none } }))
    ∧ (options.resultsToShow = .always → isMiss totalAnswers options = false)
    ∧ (options.resultsToShow = .always →
      ∀ tags, _getSummaryTags answers (isDomainNotFound answers) (isReverseDnsNotFound answers)
          totalAnswers = some tags →
        processEntity resolver options entity =
          .ok (some ⟨entity, ⟨tags, some ⟨answers, totalAnswers, resolver.servers,
            entity.isDomain && isDomainNotFound answers,
            entity.isIP && isReverseDnsNotFound answers⟩⟩⟩)) := by
  refine ⟨?_, ?_, ?_⟩
  · intro hshow htot
    have hmiss : isMiss totalAnswers options = true := by
      simp [isMiss, hshow, htot]
    unfold processEntity
    rw [if_neg (by simp [hskip]), h]
    simp [hmiss]
  · intro hshow
    simp [isMiss, hshow]
  · intro hshow tags htags
    have hmiss : isMiss totalAnswers options = false := by
      simp [isMiss, hshow]
    unfold processEntity
    rw [if_neg (by simp [hskip]), h]
    simp [hmiss, htags]

/-- C2: a classified resolver error with a non-empty code is recoverable
exactly when the code is ENODATA, ENOTFOUND or EBADRESP; classification
does not change throwability; and in a batch over one IP subject whose
reverse lookup raises the error, a throwable code fails the whole run
with the classified error while a recoverable one is recorded on the PTR
record and the run succeeds with the outcome of the subject. -/
theorem error_policy (e : DnsError) (c : String) (hc : e.code = some c) (hne : c ≠ "") :
    ((isThrowableError (some e) = false) ↔
      (c = "ENODATA" ∨ c = "ENOTFOUND" ∨ c = "EBADRESP"))
    ∧ (∀ resolver : Resolver, ∀ previousDns : Option String, ∀ options : Options,
      ∀ entity : Entity, entity.isIP = true → options.privateIpOnly = false →
      resolver.reverse entity.value = .error e →
      ((isThrowableError (some e) = true →
        (doLookup resolver previousDns options [entity] [0]).fst =
          .error (enrichDnsError e))
      ∧ (isThrowableError (some e) = false → options.resultsToShow = .always →
        ∃ r : LookupResult, (doLookup resolver previousDns options [entity] [0]).fst = .ok [r]
          ∧ ∃ d : DnsLookupDetails, r.data.details = some d
          ∧ ∃ rec : DnsResult, answersGet d.answer .PTR = some rec
          ∧ rec.error = some (enrichDnsError e)))) := by
  constructor
  · simp only [isThrowableError, hc, if_neg hne]
    by_cases h3 : (c == "ENODATA" || c == "ENOTFOUND" || c == "EBADRESP") = true
    · simp only [h3, if_true]
      simp only [Bool.or_eq_true, beq_iff_eq] at h3
      simp [hne]
      tauto
    · simp only [h3, if_false, Bool.false_eq_true]
      simp only [Bool.or_eq_true, beq_iff_eq] at h3
      simp [hne]
      tauto
  · intro resolver previousDns options entity hip hpio hrev
    have hskip : (options.privateIpOnly && entity.isIP && !entity.isPrivateIP) = false := by
      simp [hpio]
    constructor
    · intro hthrow
      have htask : runReverseTask resolver entity.value = .error e := by
        simp [runReverseTask, hrev, isThrowableError_enrich, hthrow]
      have hproc : processEntity resolver options entity = .error e := by
        unfold processEntity
        rw [if_neg (by simp [hskip])]
        simp [entityAnswerTotal, hip, htask]
      simp [doLookup, batchAccum, hproc]
    · intro hrec hshow
      have htask : runReverseTask resolver entity.value = .ok (recoverableRecord e) := by
        simp [runReverseTask, hrev, isThrowableError_enrich, hrec, recoverableRecord]
      have hAns : entityAnswerTotal resolver options entity =
          .ok (recoverableAnswer e, 0) := by
        simp [entityAnswerTotal, hip, htask, getBlankAnswer, setRecord, sortAnswers,
          recoverableAnswer, recoverableRecord]
      have hcases := resultsToShow_filter resolver options entity (recoverableAnswer e) 0
        hskip hAns
      have htags : ∃ tags, _getSummaryTags (recoverableAnswer e)
          (isDomainNotFound (recoverableAnswer e))
          (isReverseDnsNotFound (recoverableAnswer e)) 0 = some tags := by
        cases hdnf : isDomainNotFound (recoverableAnswer e) <;>
          cases hrnf : isReverseDnsNotFound (recoverableAnswer e) <;>
            simp [_getSummaryTags, getSummaryTagsRest, answersGet, recoverableAnswer, hdnf, hrnf]
      obtain ⟨tags, htags⟩ := htags
      have hproc := hcases.2.2 hshow tags htags
      have hrun : (doLookup resolver previousDns options [entity] [0]).fst =
          .ok [⟨entity, ⟨tags, some ⟨recoverableAnswer e, 0, resolver.servers,
            entity.isDomain && isDomainNotFound (recoverableAnswer e),
            entity.isIP && isReverseDnsNotFound (recoverableAnswer e)⟩⟩⟩] := by
        simp [doLookup, batchAccum, hproc]
      refine ⟨_, hrun, _, rfl, recoverableRecord e, ?_, rfl⟩
      simp [answersGet, recoverableAnswer]

/-- C1 (amended): under a batch with no skippable subject that completes
successfully, the outcome sequence follows the completion schedule, one
outcome per subject in completion order; it matches the input subject
order exactly when subjects complete in input order (the identity
schedule), not regardless of completion order. -/
theorem doLookup_batch_order (resolver : Resolver) (previousDns : Option String)
    (options : Options) (entities : List Entity)
    (hnoskip : ∀ e ∈ entities, (options.privateIpOnly && e.isIP && !e.isPrivateIP) = false) :
    (∀ sched outs, (doLookup resolver previousDns options entities sched).fst = .ok outs →
      outs.map LookupResult.entity = sched.filterMap (fun i => entities[i]?))
    ∧ (∀ outs,
      (doLookup resolver previousDns options entities (List.range entities.length)).fst =
        .ok outs →
      outs.map LookupResult.entity = entities) := by
  have hgen : ∀ sched outs,
      (doLookup resolver previousDns options entities sched).fst = .ok outs →
      outs.map LookupResult.entity = sched.filterMap (fun i => entities[i]?) := by
    intro sched outs h
    have := batchAccum_map_entity resolver options entities hnoskip sched [] outs h
    simpa using this
  refine ⟨hgen, ?_⟩
  intro outs h
  rw [hgen (List.range entities.length) outs h, filterMap_range_getElem]

/-- C1 (counterexample): with two IP subjects and the feasible completion
schedule in which the second subject finishes first, the run succeeds but
returns the outcome of the second subject first, so the i-th outcome is not
for the i-th subject. -/
theorem doLookup_batch_order_counterexample :
    feasibleSchedule 2 MAX_ENTITIES_AT_A_TIME [1, 0] = true
    ∧ (doLookup okResolver none plainOptions [ipEntity1, ipEntity2] [1, 0]).fst.map
        (List.map (fun r => r.entity.value)) = .ok ["10.0.0.2", "10.0.0.1"]
    ∧ [ipEntity1, ipEntity2].map Entity.value = ["10.0.0.1", "10.0.0.2"]
    ∧ ["10.0.0.2", "10.0.0.1"] ≠ ["10.0.0.1", "10.0.0.2"] := by
  refine ⟨by decide, ?_, by decide, by decide⟩
  with_unfolding_all rfl

/-- C10: a batch over an options object with an empty queryTypes list that
contains a domain subject and completes hands back the options object of the caller
object with the A entry appended in place: afterwards the shared
queryTypes list is exactly the one A entry, is no longer empty, and
further runs reusing the object leave it unchanged. -/
theorem queryTypes_mutation (resolver : Resolver) (previousDns : Option String)
    (options : Options) (entities : List Entity) (sched : List Nat) (e : Entity)
    (outs : List LookupResult)
    (hempty : options.queryTypes = []) (he : e ∈ entities) (hip : e.isIP = false)
    (_hok : (doLookup resolver previousDns options entities sched).fst = .ok outs) :
    ((doLookup resolver previousDns options entities sched).snd.snd).queryTypes =
      [{ value := "A" }]
    ∧ ((doLookup resolver previousDns options entities sched).snd.snd).queryTypes ≠ []
    ∧ (∀ resolver2 previousDns2 entities2 sched2,
      (doLookup resolver2 previousDns2
          ((doLookup resolver previousDns options entities sched).snd.snd)
          entities2 sched2).snd.snd =
        (doLookup resolver previousDns options entities sched).snd.snd) := by
  have hany : entities.any (fun x => !x.isIP) = true := by
    rw [List.any_eq_true]
    exact ⟨e, he, by simp [hip]⟩
  have hmut : (doLookup resolver previousDns options entities sched).snd.snd =
      { options with queryTypes := [{ value := "A" }] } := by
    simp [doLookup, mutatedOptions, hempty, hany]
  refine ⟨by rw [hmut], by rw [hmut]; simp, ?_⟩
  intro resolver2 previousDns2 entities2 sched2
  rw [hmut]
  simp [doLookup, mutatedOptions]

/-! Witnesses: concrete instantiations of the hypothesis-carrying claim
theorems. -/

/-- Witness for the amended C1 theorem at a concrete two-subject batch
with the in-order schedule. -/
theorem doLookup_batch_order_witness :
    (∀ e ∈ [ipEntity1, ipEntity2],
      (plainOptions.privateIpOnly && e.isIP && !e.isPrivateIP) = false)
    ∧ (doLookup okResolver none plainOptions [ipEntity1, ipEntity2]
        (List.range 2)).fst = .ok orderedOuts
    ∧ orderedOuts.map LookupResult.entity = [ipEntity1, ipEntity2] := by
  refine ⟨by decide, by with_unfolding_all rfl, ?_⟩
  exact (doLookup_batch_order okResolver none plainOptions [ipEntity1, ipEntity2]
    (by decide)).2 orderedOuts (by with_unfolding_all rfl)

/-- Witness for C2 at the fatal ETIMEOUT error: the code is not one of the
recoverable three and a single-subject batch fails with the classified
error. -/
theorem error_policy_witness :
    (isThrowableError (some timeoutError) = false ↔
      ("ETIMEOUT" = "ENODATA" ∨ "ETIMEOUT" = "ENOTFOUND" ∨ "ETIMEOUT" = "EBADRESP"))
    ∧ (doLookup failingResolver none plainOptions [ipEntity1] [0]).fst =
        .error (enrichDnsError timeoutError) :=
  ⟨(error_policy timeoutError "ETIMEOUT" rfl (by decide)).1,
   ((error_policy timeoutError "ETIMEOUT" rfl (by decide)).2 failingResolver none plainOptions
      ipEntity1 rfl rfl rfl).1 (by decide)⟩

/-- Witness for C3 at a raw ENOTFOUND error: the verbatim table hit
overwrites message and detail. -/
theorem enrichDnsError_table_lookup_witness :
    notFoundError.code = some "ENOTFOUND"
    ∧ enrichDnsError notFoundError =
      { notFoundError with message := "Domain name not found.", detail := some "Domain name not found." } :=
  ⟨rfl, (enrichDnsError_table_lookup notFoundError "ENOTFOUND" rfl).1
    "Domain name not found." (by decide)⟩

/-- Witness for C5 at a concrete one-key answer. -/
theorem sortAnswers_ordering_witness :
    (∀ t ∈ ptrAnswer1.__order, (answersGet ptrAnswer1 t).isSome)
    ∧ ((sortAnswers ptrAnswer1).__order.Pairwise (fun a b =>
      resCountD ptrAnswer1 b ≤ resCountD ptrAnswer1 a ∧
      (resCountD ptrAnswer1 b = resCountD ptrAnswer1 a →
        bNum (searchedD ptrAnswer1 b) ≤ bNum (searchedD ptrAnswer1 a)))) :=
  ⟨by decide, (sortAnswers_ordering ptrAnswer1 (by decide)).1⟩

/-- Witness for C6 at a concrete answer with one A result and three total
answers: the A tag comes first with a +2 answers suffix. -/
theorem getSummaryTags_cases_witness :
    (answersGet mixedAnswer .A =
      some { results := [.addrRec "93.184.216.34" 300], error := none, searched := true,
             elapsedTime := some 0 })
    ∧ _getSummaryTags mixedAnswer false false 3 = some ["A 93.184.216.34", "+2 answers"] := by
  refine ⟨by decide, ?_⟩
  have h := (getSummaryTags_cases mixedAnswer false false 3).2.2.1 rfl rfl
    { results := [.addrRec "93.184.216.34" 300], error := none, searched := true,
      elapsedTime := some 0 }
    (.addrRec "93.184.216.34" 300) [] (by decide) rfl
  exact h.trans (by decide)

/-- Witness for C8 at a concrete IP subject whose reverse lookup
succeeded: the always filter yields the full outcome. -/
theorem resultsToShow_filter_witness :
    (plainOptions.privateIpOnly && ipEntity1.isIP && !ipEntity1.isPrivateIP) = false
    ∧ entityAnswerTotal okResolver plainOptions ipEntity1 = .ok (ptrAnswer1, 1)
    ∧ processEntity okResolver plainOptions ipEntity1 =
      .ok (some ⟨ipEntity1, ⟨["PTR host-10.0.0.1"], some ⟨ptrAnswer1, 1, okResolver.servers,
        ipEntity1.isDomain && isDomainNotFound ptrAnswer1,
        ipEntity1.isIP && isReverseDnsNotFound ptrAnswer1⟩⟩⟩) := by
  refine ⟨by decide, by with_unfolding_all rfl, ?_⟩
  exact (resultsToShow_filter okResolver plainOptions ipEntity1 ptrAnswer1 1 (by decide)
    (by with_unfolding_all rfl)).2.2 rfl ["PTR host-10.0.0.1"] (by decide)

/-- Witness for C9 at a concrete first-time server configuration. -/
theorem stepDns_idempotent_witness :
    ((stepDns none "8.8.8.8").snd = true ↔
      ("8.8.8.8" ≠ "" ∧ (none : Option String) ≠ some "8.8.8.8"))
    ∧ (stepDns (stepDns none "8.8.8.8").fst "8.8.8.8").snd = false
    ∧ dnsReconfigCount (stepDns none "8.8.8.8").fst (List.replicate 3 "8.8.8.8") = 0 := by
  have h := stepDns_idempotent none "8.8.8.8"
  exact ⟨h.1, h.2.1, h.2.2.1 3⟩

/-- Witness for C10 at a concrete one-domain batch with empty configured
query types. -/
theorem queryTypes_mutation_witness :
    plainOptions.queryTypes = []
    ∧ domainEntity ∈ [domainEntity]
    ∧ domainEntity.isIP = false
    ∧ (doLookup okResolver none plainOptions [domainEntity] [0]).fst = .ok domainOuts
    ∧ ((doLookup okResolver none plainOptions [domainEntity] [0]).snd.snd).queryTypes =
        [{ value := "A" }] := by
  refine ⟨rfl, by decide, rfl, by with_unfolding_all rfl, ?_⟩
  exact (queryTypes_mutation okResolver none plainOptions [domainEntity] [0] domainEntity
    domainOuts rfl (by decide) rfl (by with_unfolding_all rfl)).1

end DnsQuery
